import Mathlib

/-!
Verification development for the Mark 2 device skill
(`src/__init__.py` and `src/sj201_revA/led.py`).

The Python handlers are shallowly embedded as pure Lean functions over an
explicit state record.  Machine arithmetic notes:

* Python `int(x)` on a float truncates toward zero; every such site in the
  embedded code is applied to a non-negative value, where truncation equals
  the floor, hence integer floor division below.
* `parse_brightness` computes `int((i * 100.0) / 30.0)` for `i` in `[0, 29]`
  and `set_screen_brightness` computes `int(float(level) * 100 / 30)` for
  `level` in `[0, 30]`; the exact rational values are either integers
  (represented exactly in double precision, and the double computation does
  not round below the integer on these domains) or at distance at least 1/3
  from an integer, far beyond the rounding error, so the floor of the exact
  rational is the value the Python code produces.
* `percent_to_level` computes `int(float(percent) / 100 * 30)`; for integer
  `percent` in `[0, 100]` the double computation agrees with the exact
  rational floor (checked at every integer multiple of 10, the only points
  where the exact value is an integer).
-/

/-! ## Python string primitives used by the skill -/

/-- `leadMatch pat s` is true when `pat` is an initial segment of `s`
(Python `s.startswith(pat)`, on explicit character lists). -/
def leadMatch : List Char → List Char → Bool
  | [], _ => true
  | _ :: _, [] => false
  | a :: as, b :: bs => a == b && leadMatch as bs

/-- Python substring test `pat in s` (true somewhere in `s`, including the
empty pattern). -/
def hasSub (pat : List Char) : List Char → Bool
  | [] => leadMatch pat []
  | b :: bs => leadMatch pat (b :: bs) || hasSub pat bs

/-- If `pat` is an initial segment of `s`, the remainder of `s` after it. -/
def stripLead : List Char → List Char → Option (List Char)
  | [], s => some s
  | _ :: _, [] => none
  | a :: as, b :: bs => if a == b then stripLead as bs else none

/-- Fuel-indexed core of Python `s.replace(pat, "")`: delete every
non-overlapping occurrence of `pat`, scanning left to right.  For a
non-empty `pat`, fuel `s.length` always suffices, since every recursive
call consumes at least one character of the remaining text. -/
def replaceCore (pat : List Char) : Nat → List Char → List Char
  | _, [] => []
  | 0, s => s
  | fuel + 1, b :: bs =>
    match stripLead pat (b :: bs) with
    | some rest => replaceCore pat fuel rest
    | none => b :: replaceCore pat fuel bs

/-- Python `s.replace(pat, "")` for the non-empty patterns used by the
skill (`"%"` and `"percent"`). -/
def pyReplace (pat s : List Char) : List Char :=
  replaceCore pat s.length s

/-- Python `s.strip()`: drop leading and trailing whitespace. -/
def pyStrip (s : List Char) : List Char :=
  ((s.dropWhile Char.isWhitespace).reverse.dropWhile Char.isWhitespace).reverse

/-- Accumulator loop reading a non-empty all-digit list as a natural
number; any non-digit character aborts (Python `ValueError`). -/
def digitsAcc : List Char → Nat → Option Nat
  | [], acc => some acc
  | c :: cs, acc =>
    if c.isDigit then digitsAcc cs (acc * 10 + (c.toNat - 48)) else none

/-- All-digit list to natural number; empty input is a parse failure. -/
def digitsToNat : List Char → Option Nat
  | [] => none
  | c :: cs => digitsAcc (c :: cs) 0

/-- Python `int(s)` on a string: surrounding whitespace is ignored, then an
optional sign followed by at least one digit.  (Digit-group underscores,
accepted by Python between digits, never occur in the inputs this skill
handles and are not modelled.)  Failure models the `ValueError` caught by
the surrounding `try`. -/
def pyInt (s : List Char) : Option Int :=
  match pyStrip s with
  | [] => none
  | c :: cs =>
    if c == '+' then (digitsToNat cs).map (fun n => (n : Int))
    else if c == '-' then (digitsToNat cs).map (fun n => -(n : Int))
    else (digitsToNat (c :: cs)).map (fun n => (n : Int))

/-- Python `int(q)` on a rational: truncation toward zero. -/
def pyTruncQ (q : ℚ) : ℤ :=
  if 0 ≤ q then ⌊q⌋ else -⌊-q⌋

/-! ## Brightness parsing and level conversion (`src/__init__.py`) -/

/-- `Mark2.percent_to_level`: `int(float(percent) / float(100) * 30)`.
For `percent` in `[0, 100]` the double computation equals this exact
floor (see the header note). -/
def percent_to_level (percent : ℤ) : ℤ :=
  percent * 30 / 100

/-- The percent value computed inside `Mark2.set_screen_brightness`:
`int(float(level) * float(100) / float(30))` — the level-to-percent
conversion the program actually uses (truncating, not rounding). -/
def screen_brightness_percent (level : ℤ) : ℤ :=
  level * 100 / 30

/-- `Mark2.parse_brightness`.  The locale name table
(`self.brightness_dict`, built by `translate_namedvalues`) and the
`normalize` text normalizer live outside this repository and are passed in
as parameters; `none` from the table models a missing key.  The result
`none` models the `return None` paths (including the `except` clause
around the `int()` conversions). -/
def parse_brightness (normalize : String → String)
    (brightness_dict : String → Option ℤ) (brightness : String) : Option ℤ :=
  match brightness_dict (normalize brightness) with
  | some v => some v
  | none =>
    let bs := brightness.data
    if hasSub "%".data bs then
      pyInt (pyStrip (pyReplace "%".data bs))
    else if hasSub "percent".data bs then
      pyInt (pyStrip (pyReplace "percent".data bs))
    else
      match pyInt bs with
      | none => none
      | some i =>
        if i < 0 ∨ 100 < i then none
        else if i < 30 then some (i * 100 / 30)
        else some i

/-! ## Solar brightness scheduling (`Mark2.schedule_brightness`) -/

/-- The instant at which `Mark2.schedule_brightness` arms the one-shot
timer, in epoch seconds: the computed instant is shifted by exactly
24 hours when `now.timestamp > arw_d_time.timestamp`, and is otherwise
used unchanged (both branches call `schedule_event`). -/
def scheduledInstant (now d_time : ℤ) : ℤ :=
  if d_time < now then d_time + 86400 else d_time

/-- `Mark2.handle_auto_brightness` schedules every slot of the
`(instant, targetLevel)` map returned by `_get_auto_time` through
`schedule_brightness`. -/
def schedule_all (now : ℤ) (slots : List (ℤ × ℤ)) : List (ℤ × ℤ) :=
  slots.map (fun p => (scheduledInstant now p.1, p.2))

/-! ## The feedback state machine (`Mark2` event handlers) -/

/-- The visible state of the pixel ring: `idle` after `pixel_ring.off()`,
`listening` after `listen()`, `thinking` after `think()`, `speaking` after
`speak()`, and `volumeDisplay k` after `set_volume(k)`. -/
inductive LedMode : Type where
  | idle : LedMode
  | listening : LedMode
  | thinking : LedMode
  | speaking : LedMode
  | volumeDisplay : ℤ → LedMode
deriving DecidableEq, Repr

/-- The inbound messagebus events handled by the skill.  Optional payload
fields are carried as `Option` values (`none` = field absent from the
message payload). -/
inductive Event : Type where
  | listenStart : Event
  | listenEnd : Event
  | handlerStart : String → Event
  | handlerComplete : String → Event
  | audioStart : Event
  | audioEnd : Event
  | volumeSet : Option ℚ → Option Bool → Event
  | volumeGet : Option Bool → Event
  | volumeDuck : Event
  | volumeUnduck : Event
deriving DecidableEq

/-- The mutable attributes of the `Mark2` skill instance that the embedded
handlers touch.  `showing_volume` is the attribute created by the
assignment in `on_handler_audio_end`; it is distinct from `show_volume`
and is never read by any handler. -/
structure Mark2State : Type where
  volume : ℚ
  muted : Bool
  show_volume : Bool
  showing_volume : Bool
  speaking : Bool
  led : LedMode
deriving DecidableEq

/-- The clamp in `on_volume_set`: `0.0 if vol < 0.0 else vol`, then
`1.0 if vol > 1.0 else vol`. -/
def clampVol (v : ℚ) : ℚ :=
  if v < 0 then 0 else if 1 < v then 1 else v

/-- `self.skip_list = ('Mark2', 'TimeSkill.update_display')`. -/
def skip_list : List (List Char) :=
  ["Mark2".data, "TimeSkill.update_display".data]

/-- `Mark2._skip_handler`: `any(skip in handler for skip in
self.skip_list)` (Python substring containment). -/
def skipHandler (handler : String) : Bool :=
  skip_list.any (fun pat => hasSub pat handler.data)

/-- Attribute state after `__init__` (`self.volume = 0.5`, flags false,
ring dark).  `get_hardware_volume` may re-read `volume` from the device;
reachability below therefore allows an arbitrary initial volume. -/
def init0 : Mark2State :=
  { volume := 1 / 2
    muted := false
    show_volume := false
    showing_volume := false
    speaking := false
    led := LedMode.idle }

/-- One handler invocation, as the state transformation performed by the
corresponding `Mark2` method:

* `listenStart`/`listenEnd` — `handle_listener_started` / `_ended`;
* `handlerStart`/`handlerComplete` — `on_handler_started` / `_complete`;
* `audioStart`/`audioEnd` — `on_handler_audio_start` / `_end`
  (note the `showing_volume` assignment in `_end`);
* `volumeSet`/`volumeGet`/`volumeDuck`/`volumeUnduck` — the
  `on_volume_*` handlers (`percent` defaults to `0.5`, `show` to
  `False`). -/
def stepEvent (s : Mark2State) : Event → Mark2State
  | Event.listenStart => { s with led := LedMode.listening }
  | Event.listenEnd => { s with led := LedMode.idle }
  | Event.handlerStart h =>
    if skipHandler h then s else { s with led := LedMode.thinking }
  | Event.handlerComplete h =>
    if skipHandler h then s
    else if !s.speaking && !s.show_volume then { s with led := LedMode.idle }
    else s
  | Event.audioStart =>
    if s.show_volume then
      { s with led := LedMode.volumeDisplay (pyTruncQ (s.volume * 12)) }
    else
      { s with speaking := true, led := LedMode.speaking }
  | Event.audioEnd =>
    { s with speaking := false, showing_volume := false, led := LedMode.idle }
  | Event.volumeSet v _ =>
    let vol := clampVol (v.getD (1 / 2))
    { s with volume := vol, muted := false, show_volume := true }
  | Event.volumeGet sh => { s with show_volume := sh.getD false }
  | Event.volumeDuck => { s with muted := true }
  | Event.volumeUnduck => { s with muted := false }

/-- The `pct` argument the handler passes to `set_hardware_volume`
(the device register then receives `int(15 * pct) + 15`): `on_volume_set`
writes the clamped value, `on_volume_duck` writes `0`, `on_volume_unduck`
writes `self.volume`; no other handler writes the amplifier. -/
def hwVolumeWrite (s : Mark2State) : Event → Option ℚ
  | Event.volumeSet v _ => some (clampVol (v.getD (1 / 2)))
  | Event.volumeDuck => some 0
  | Event.volumeUnduck => some s.volume
  | _ => none

/-- Run a sequence of events. -/
def runEvents (s : Mark2State) : List Event → Mark2State
  | [] => s
  | e :: es => runEvents (stepEvent s e) es

/-- The LED mode observed after each event of a sequence. -/
def modeTrace (s : Mark2State) : List Event → List LedMode
  | [] => []
  | e :: es => (stepEvent s e).led :: modeTrace (stepEvent s e) es

/-- States reachable from start-up (any hardware-reported initial volume)
by handler invocations. -/
inductive Reachable : Mark2State → Prop where
  | init (v : ℚ) : Reachable { init0 with volume := v }
  | step (s : Mark2State) (e : Event) :
      Reachable s → Reachable (stepEvent s e)

theorem reachable_runEvents (evs : List Event) (s : Mark2State)
    (h : Reachable s) : Reachable (runEvents s evs) := by
  induction evs generalizing s with
  | nil => exact h
  | cons e es ih => exact ih (stepEvent s e) (Reachable.step s e h)

/-- Invariant: whenever the ring shows the speaking animation, the
`speaking` flag is set (the flag and the animation are only ever set
together in `on_handler_audio_start` and only ever cleared together in
`on_handler_audio_end`). -/
theorem reachable_speak_flag (s : Mark2State) (h : Reachable s) :
    s.led = LedMode.speaking → s.speaking = true := by
  induction h with
  | init v => simp [init0]
  | step s e _ ih =>
    cases e with
    | listenStart => simp [stepEvent]
    | listenEnd => simp [stepEvent]
    | handlerStart hd =>
      by_cases hsk : skipHandler hd
      · simpa [stepEvent, hsk] using ih
      · simp [stepEvent, hsk]
    | handlerComplete hd =>
      by_cases hsk : skipHandler hd
      · simpa [stepEvent, hsk] using ih
      · by_cases hsp : s.speaking
        · simp [stepEvent, hsk, hsp]
        · by_cases hsv : s.show_volume
          · simpa [stepEvent, hsk, hsp, hsv] using ih
          · simp [stepEvent, hsk, hsp, hsv]
    | audioStart =>
      by_cases hsv : s.show_volume
      · simp [stepEvent, hsv]
      · simp [stepEvent, hsv]
    | audioEnd => simp [stepEvent]
    | volumeSet v sh => simpa [stepEvent] using ih
    | volumeGet sh => simpa [stepEvent] using ih
    | volumeDuck => simpa [stepEvent] using ih
    | volumeUnduck => simpa [stepEvent] using ih

/-! ## The SJ201 LED driver (`src/sj201_revA/led.py`) -/

/-- An RGB color tuple as used by the driver. -/
abbrev Rgb : Type := Nat × Nat × Nat

/-- The `Led` object: `num_leds = 12` and the in-memory color list
(`_update_leds`, which shells out to the hardware script, has no effect on
this state). -/
structure Led : Type where
  num_leds : Nat
  leds : List Rgb

/-- `Led.__init__`: twelve black LEDs. -/
def Led.mkInit : Led :=
  { num_leds := 12, leds := List.replicate 12 (0, 0, 0) }

/-- `Led.set_led`: `self.leds[which % self.num_leds] = color`.  Python `%`
with a positive modulus returns a value in `[0, modulus)`, which is
`Int.emod`; the in-range index makes the Python list assignment (which
would raise when out of bounds) total. -/
def Led.set_led (L : Led) (which : ℤ) (color : Rgb) : Led :=
  { L with leds := L.leds.set (which % (L.num_leds : ℤ)).toNat color }

/-- `Led.get_led`: `return self.leds[which % self.num_leds]`.  The default
of `getD` is never consulted at an in-range index. -/
def Led.get_led (L : Led) (which : ℤ) : Rgb :=
  L.leds.getD (which % (L.num_leds : ℤ)).toNat (0, 0, 0)

theorem getD_set_same {α : Type} (l : List α) (n : Nat) (a d : α)
    (h : n < l.length) : (l.set n a).getD n d = a := by
  induction l generalizing n with
  | nil => simp at h
  | cons x xs ih =>
    cases n with
    | zero => simp
    | succ m =>
      simp only [List.set_cons_succ, List.getD_cons_succ]
      exact ih m (by simpa using h)

/-! ## Claim C1: the show-volume flag after audio-output-end -/

/-- Claim C1 (code evaluation): after a `mycroft.volume.set` has set the
show-volume flag, handling `recognizer_loop:audio_output_end` turns the
ring off and clears `speaking`, but the `show_volume` flag consulted by
`on_handler_audio_start` is still `true`: the handler assigns the unused
attribute `showing_volume` instead of `show_volume`. -/
theorem c1_audio_end_leaves_show_volume :
    (stepEvent init0 (Event.volumeSet none none)).show_volume = true
    ∧ (stepEvent (stepEvent init0 (Event.volumeSet none none))
        Event.audioEnd).show_volume = true
    ∧ (stepEvent (stepEvent init0 (Event.volumeSet none none))
        Event.audioEnd).led = LedMode.idle
    ∧ (stepEvent (stepEvent init0 (Event.volumeSet none none))
        Event.audioEnd).speaking = false
    ∧ (stepEvent (stepEvent init0 (Event.volumeSet none none))
        Event.audioEnd).showing_volume = false := by
  decide

/-! ## Claim C2: duck/unduck volume restoration -/

/-- Claim C2: for every starting state and every number of consecutive
`volume.duck` events followed by a single `volume.unduck`, the stored
volume level is never modified, the value written to the amplifier on
unduck is the level from before the first duck, and the stored level
after unduck still equals it (`on_volume_duck` writes `0` to hardware
without touching `self.volume`, so re-ducking cannot overwrite the saved
level). -/
theorem c2_duck_unduck_restores (s : Mark2State) (n : ℕ) :
    (runEvents s (List.replicate n Event.volumeDuck)).volume = s.volume
    ∧ hwVolumeWrite (runEvents s (List.replicate n Event.volumeDuck))
        Event.volumeUnduck = some s.volume
    ∧ (stepEvent (runEvents s (List.replicate n Event.volumeDuck))
        Event.volumeUnduck).volume = s.volume := by
  have key : ∀ (m : ℕ) (t : Mark2State),
      (runEvents t (List.replicate m Event.volumeDuck)).volume = t.volume := by
    intro m
    induction m with
    | zero => intro t; rfl
    | succ k ih =>
      intro t
      rw [List.replicate_succ]
      show (runEvents (stepEvent t Event.volumeDuck)
        (List.replicate k Event.volumeDuck)).volume = t.volume
      rw [ih]
      rfl
  refine ⟨key n s, ?_, ?_⟩
  · show some (runEvents s (List.replicate n Event.volumeDuck)).volume
      = some s.volume
    rw [key n s]
  · show (runEvents s (List.replicate n Event.volumeDuck)).volume = s.volume
    exact key n s

/-! ## Claim C3: plain-integer brightness parsing -/

/-- Modelled from the spec words for comparison with the code:
`round(a / b)` for a positive denominator, as half-up rounding
`⌊a / b + 1 / 2⌋ = (2 a + b) / (2 b)` in integer floor division.  On the
domain used below (`a = i * 100`, `b = 30`, `i` in `[0, 29]`) the exact
quotient is never at a half point (that would force `i` divisible by 3,
where the quotient is an integer), so every tie-breaking convention,
including the Python banker rounding, agrees with this value. -/
def specRound (a b : ℤ) : ℤ :=
  (2 * a + b) / (2 * b)

/-- Claim C3 counterexample: on input "2" (a plain integer, no name
match, no percent suffix) the code returns `int((2 * 100.0) / 30.0) = 6`,
while the claimed `round(2 * 100 / 30)` is `7`. -/
theorem c3_round_counterexample :
    parse_brightness (fun s => s) (fun _ => none) "2" = some 6
    ∧ specRound (2 * 100) 30 = 7
    ∧ parse_brightness (fun s => s) (fun _ => none) "2"
      ≠ some (specRound (2 * 100) 30) := by
  decide

/-- Claim C3 (amended): for every string that parses as a plain integer
`i` (no name match, no `%` and no word `percent`): if `i < 0` or
`i > 100` the parse returns `None`; if `0 ≤ i < 30` it returns the
truncating rescale `⌊i * 100 / 30⌋` (Python `int`, not `round`); if
`30 ≤ i ≤ 100` it returns `i` unchanged.  In particular
`parse("15") = 50`, `parse("80") = 80` and `parse("150") = None`. -/
theorem c3_plain_integer_amended :
    (∀ (normalize : String → String) (dict : String → Option ℤ)
      (s : String) (i : ℤ),
      dict (normalize s) = none →
      hasSub "%".data s.data = false →
      hasSub "percent".data s.data = false →
      pyInt s.data = some i →
      ((i < 0 ∨ 100 < i) → parse_brightness normalize dict s = none)
      ∧ (0 ≤ i → i < 30 →
          parse_brightness normalize dict s = some (i * 100 / 30))
      ∧ (30 ≤ i → i ≤ 100 → parse_brightness normalize dict s = some i))
    ∧ parse_brightness (fun s => s) (fun _ => none) "15" = some 50
    ∧ parse_brightness (fun s => s) (fun _ => none) "80" = some 80
    ∧ parse_brightness (fun s => s) (fun _ => none) "150" = none := by
  refine ⟨?_, by decide, by decide, by decide⟩
  intro normalize dict s i h1 h2 h3 h4
  simp only [parse_brightness, h1, h2, h3, h4, Bool.false_eq_true,
    if_false]
  refine ⟨?_, ?_, ?_⟩
  · intro h
    rw [if_pos h]
  · intro ha hb
    rw [if_neg (by omega), if_pos hb]
  · intro ha hb
    rw [if_neg (by omega), if_neg (by omega)]

/-- Claim C3 witness: the amended theorem applied at input "15". -/
theorem c3_witness :
    parse_brightness (fun s => s) (fun _ => none) "15" = some 50 := by
  have h := (c3_plain_integer_amended.1 (fun s => s) (fun _ => none)
    "15" 15 rfl (by decide) (by decide) (by decide)).2.1
    (by decide) (by decide)
  simpa using h

/-! ## Claim C4: the percent-suffix branch performs no range check -/

/-- Claim C4 (code evaluation): with a `%` or `percent` marker (and no
name match) the code strips the marker and returns `int(...)` directly,
with no `[0, 100]` range check — "150%" parses to `150` and
"250 percent" to `250`, where the claim (and the docstring of
`parse_brightness`, which promises a 0-100 percentage) requires a
`ParseError`; only the non-numeric half of the claim holds. -/
theorem c4_percent_branch_unchecked :
    parse_brightness (fun s => s) (fun _ => none) "150%" = some 150
    ∧ parse_brightness (fun s => s) (fun _ => none) "250 percent" = some 250
    ∧ parse_brightness (fun s => s) (fun _ => none) "apple%" = none := by
  decide

/-! ## Claim C5: scheduled solar instants and the 24-hour shift -/

/-- Claim C5 counterexample: `schedule_brightness` advances a past
instant by a single 24-hour shift, never by repeated steps, so a slot
instant one day or more in the past is still scheduled in the past
(`now = 200000`, instant `0` is scheduled at `86400 < now`, not at the
smallest future occurrence `259200`); and the shift condition is strict,
so an instant exactly equal to `now` is scheduled at `now`, not strictly
in the future. -/
theorem c5_not_always_future :
    ¬ (200000 < scheduledInstant 200000 0)
    ∧ scheduledInstant 200000 0 = 86400
    ∧ scheduledInstant 0 0 = 0 := by
  decide

/-- Claim C5 (amended): every slot instant strictly before `now` is
advanced by exactly one 24-hour step; consequently, for every slot whose
computed instant lies strictly inside the 24 hours preceding `now`, or
strictly after `now`, the scheduled instant is strictly in the future.
An instant equal to `now` is scheduled unshifted, and an instant 24 hours
or more in the past stays in the past. -/
theorem c5_single_shift (now : ℤ) (slots : List (ℤ × ℤ))
    (h : ∀ p ∈ slots, now - 86400 < p.1 ∧ p.1 ≠ now) :
    (∀ q ∈ schedule_all now slots, now < q.1)
    ∧ (∀ t : ℤ, t < now → scheduledInstant now t = t + 86400) := by
  constructor
  · intro q hq
    simp only [schedule_all, List.mem_map] at hq
    obtain ⟨p, hp, rfl⟩ := hq
    have hp2 := h p hp
    simp only [scheduledInstant]
    split <;> omega
  · intro t ht
    simp [scheduledInstant, ht]

/-- Claim C5 witness: the amended theorem applied to a sunrise slot one
hour in the past, a noon slot in the future and a sunset slot one second
in the past, at `now = 1000`. -/
theorem c5_witness :
    (1000 : ℤ) < 86900
    ∧ schedule_all 1000 [(500, 20), (1500, 30), (999, 5)]
      = [(86900, 20), (1500, 30), (87399, 5)] := by
  have h := c5_single_shift 1000 [(500, 20), (1500, 30), (999, 5)]
    (by decide)
  exact ⟨h.1 (86900, 20) (by decide), by decide⟩

/-! ## Claim C6: handler-complete while Speaking or VolumeDisplay -/

/-- The state reached by a `volume.set`, then `audio_output_start`
(entering the volume display), then a `volume.get` whose payload has
`show` false — the `volume.get` clears the `show_volume` flag while the
ring still shows the volume. -/
def c6State : Mark2State :=
  runEvents init0 [Event.volumeSet (some 1) none, Event.audioStart,
    Event.volumeGet (some false)]

/-- Claim C6 counterexample: `c6State` is reachable and its mode is
VolumeDisplay, yet a `handler.complete` for a foreign skill blanks the
LEDs there (mode changes to Idle), because `on_handler_complete` consults
the `show_volume` flag, which the interleaved `volume.get` has cleared,
rather than the current mode. -/
theorem c6_counterexample :
    Reachable c6State
    ∧ (∃ k, c6State.led = LedMode.volumeDisplay k)
    ∧ c6State.led ≠ LedMode.idle
    ∧ (stepEvent c6State (Event.handlerComplete "WeatherSkill")).led
      = LedMode.idle := by
  refine ⟨reachable_runEvents _ _ (Reachable.init (1 / 2)), ⟨_, rfl⟩, ?_, ?_⟩
  · intro h
    exact absurd h (by decide)
  · decide

/-- Claim C6 (amended): in every reachable state whose mode is Speaking a
`handler.complete` event changes nothing, and in every state where the
show-volume flag is still set a `handler.complete` event changes nothing
(so VolumeDisplay survives unless an interleaved `volume.get` cleared the
flag, as in the counterexample); and the event sequence [listen-start,
listen-end, handler-start(WeatherSkill), audio-output-start,
handler-complete(WeatherSkill), audio-output-end] yields the mode
sequence [Listening, Idle, Thinking, Speaking, Speaking, Idle]. -/
theorem c6_handler_complete_amended :
    (∀ s : Mark2State, Reachable s → s.led = LedMode.speaking →
      ∀ hd : String, stepEvent s (Event.handlerComplete hd) = s)
    ∧ (∀ s : Mark2State, s.show_volume = true →
      ∀ hd : String, stepEvent s (Event.handlerComplete hd) = s)
    ∧ modeTrace init0
        [Event.listenStart, Event.listenEnd,
         Event.handlerStart "WeatherSkill", Event.audioStart,
         Event.handlerComplete "WeatherSkill", Event.audioEnd]
      = [LedMode.listening, LedMode.idle, LedMode.thinking,
         LedMode.speaking, LedMode.speaking, LedMode.idle] := by
  refine ⟨?_, ?_, by decide⟩
  · intro s hr hled hd
    have hsp := reachable_speak_flag s hr hled
    simp [stepEvent, hsp]
  · intro s hsv hd
    simp [stepEvent, hsv]

/-- Claim C6 witness: the amended theorem applied to the reachable
Speaking state reached by a single `audio_output_start` from start-up. -/
theorem c6_witness :
    stepEvent (stepEvent init0 Event.audioStart)
      (Event.handlerComplete "WeatherSkill")
    = stepEvent init0 Event.audioStart := by
  exact c6_handler_complete_amended.1 (stepEvent init0 Event.audioStart)
    (Reachable.step _ _ (Reachable.init (1 / 2))) rfl "WeatherSkill"

/-! ## Claim C7: level-to-percent round trip -/

/-- Claim C7: for every device level in `[0, 30]`, converting to percent
with the conversion of `set_screen_brightness` and back with
`percent_to_level` lands within 1 of the original level. -/
theorem c7_level_roundtrip (l : ℤ) (h0 : 0 ≤ l) (h30 : l ≤ 30) :
    (percent_to_level (screen_brightness_percent l) - l).natAbs ≤ 1 := by
  unfold percent_to_level screen_brightness_percent
  omega

/-- Claim C7 witness: the round trip at level 2 (percent 6, back to
level 1). -/
theorem c7_witness :
    (percent_to_level (screen_brightness_percent 2) - 2).natAbs ≤ 1 :=
  c7_level_roundtrip 2 (by decide) (by decide)

/-! ## Claim C8: handler-start suppression list -/

/-- Claim C8: a `handler.start` whose handler name matches the
suppression list (substring match against "Mark2" and
"TimeSkill.update_display") leaves the whole state unchanged in every
state, while any non-matching handler name turns the ring to Thinking
and changes nothing else; "TimeSkill.update_display" and the skill's own
handlers match, a foreign skill handler does not. -/
theorem c8_handler_start_suppression (s : Mark2State) (hd : String) :
    (skipHandler hd = true → stepEvent s (Event.handlerStart hd) = s)
    ∧ (skipHandler hd = false →
        stepEvent s (Event.handlerStart hd)
          = { s with led := LedMode.thinking })
    ∧ skipHandler "TimeSkill.update_display" = true
    ∧ skipHandler "Mark2.handle_brightness" = true
    ∧ skipHandler "WeatherSkill.handle_forecast" = false := by
  refine ⟨?_, ?_, by decide, by decide, by decide⟩
  · intro h
    simp [stepEvent, h]
  · intro h
    simp [stepEvent, h]

/-- Claim C8 witness: the suppression half of the theorem applied to the
clock-update handler in the start-up state. -/
theorem c8_witness :
    stepEvent init0 (Event.handlerStart "TimeSkill.update_display")
    = init0 :=
  (c8_handler_start_suppression init0 "TimeSkill.update_display").1
    (by decide)

/-! ## Claim C9: volume.set always arms the volume display -/

/-- Claim C9: every `mycroft.volume.set` event sets the show-volume flag,
whatever its optional `show` field holds (the handler never reads that
field), so an `audio_output_start` arriving next enters the
volume-display mode rather than Speaking. -/
theorem c9_volume_set_always_shows (s : Mark2State) (v : Option ℚ)
    (sh : Option Bool) :
    (stepEvent s (Event.volumeSet v sh)).show_volume = true
    ∧ (∃ k, (stepEvent (stepEvent s (Event.volumeSet v sh))
        Event.audioStart).led = LedMode.volumeDisplay k)
    ∧ (stepEvent (stepEvent s (Event.volumeSet v sh))
        Event.audioStart).led ≠ LedMode.speaking := by
  refine ⟨rfl, ⟨_, rfl⟩, ?_⟩
  intro h
  exact absurd h (by simp [stepEvent])

/-! ## Claim C10: LED index wrap-around -/

/-- Claim C10: on a well-formed `Led` object (twelve LEDs, as built by
`Led.__init__`), `set_led` and `get_led` address index `i mod 12` for
every integer `i`, including negative ones and those at least 12: the
index is always strictly inside the list, the list length is preserved,
and `get_led i` immediately after `set_led i c` returns `c`. -/
theorem c10_led_mod_access (L : Led) (i : ℤ) (c : Rgb)
    (hnum : L.num_leds = 12) (hlen : L.leds.length = 12) :
    (i % (L.num_leds : ℤ)).toNat < L.leds.length
    ∧ (L.set_led i c).leds.length = 12
    ∧ (L.set_led i c).get_led i = c := by
  have h12 : ((L.num_leds : ℤ)) = 12 := by rw [hnum]; norm_num
  have hnn : 0 ≤ i % (12 : ℤ) := Int.emod_nonneg i (by norm_num)
  have hlt : i % (12 : ℤ) < 12 := Int.emod_lt_of_pos i (by norm_num)
  refine ⟨?_, ?_, ?_⟩
  · rw [h12, hlen]
    omega
  · simp [Led.set_led, hlen]
  · simp only [Led.set_led, Led.get_led, h12]
    exact getD_set_same _ _ _ _ (by rw [hlen]; omega)

/-- Claim C10 witness: setting LED -5 (position 7) on a fresh ring and
reading it back. -/
theorem c10_witness :
    (Led.mkInit.set_led (-5) (9, 8, 7)).get_led (-5) = (9, 8, 7) :=
  (c10_led_mod_access Led.mkInit (-5) (9, 8, 7) rfl (by decide)).2.2
